import Mathlib

/-!
Shallow embedding of the BiomechanicalAnalysis inverse-kinematics and
inverse-dynamics components of the biomechanical-analysis-framework
repository (src/IK/src/InverseKinematics.cpp and
src/ID/src/InverseDynamics.cpp).

Real-valued quantities are modelled over the rationals.  External
collaborators (the QP task-priority solver, the Berdy sparse MAP solver,
the articulated-model query service, the SO(3) exponential used by the
manifold integrator, model loading) are black-box services consumed by the
code under verification; they are modelled as oracle parameters whose
results are supplied to each embedded operation, while all control flow,
state mutation and arithmetic that live in the repository sources are
translated directly.
-/

namespace BAF

/-- Three-dimensional vector over the rationals (models iDynTree and Eigen
3-vectors). -/
structure V3 where
  x : ℚ
  y : ℚ
  z : ℚ
deriving DecidableEq

/-- Componentwise addition of 3-vectors. -/
def V3.add (a b : V3) : V3 :=
  ⟨a.x + b.x, a.y + b.y, a.z + b.z⟩

instance : Add V3 := ⟨V3.add⟩

/-- Componentwise subtraction of 3-vectors. -/
def V3.sub (a b : V3) : V3 :=
  ⟨a.x - b.x, a.y - b.y, a.z - b.z⟩

instance : Sub V3 := ⟨V3.sub⟩

/-- Scaling of a 3-vector by a rational. -/
def V3.smul (c : ℚ) (a : V3) : V3 :=
  ⟨c * a.x, c * a.y, c * a.z⟩

instance : SMul ℚ V3 := ⟨V3.smul⟩

/-- The zero 3-vector. -/
def V3.zero : V3 := ⟨0, 0, 0⟩

/-- Cross product of 3-vectors. -/
def V3.cross (a b : V3) : V3 :=
  ⟨a.y * b.z - a.z * b.y, a.z * b.x - a.x * b.z, a.x * b.y - a.y * b.x⟩

/-- Three-by-three rational matrix (models rotation matrices; the manif or
iDynTree rotation inverse is embedded as the transpose). -/
structure M3 where
  m11 : ℚ
  m12 : ℚ
  m13 : ℚ
  m21 : ℚ
  m22 : ℚ
  m23 : ℚ
  m31 : ℚ
  m32 : ℚ
  m33 : ℚ
deriving DecidableEq

/-- Matrix-vector product. -/
def M3.mulVec (A : M3) (v : V3) : V3 :=
  ⟨A.m11 * v.x + A.m12 * v.y + A.m13 * v.z,
   A.m21 * v.x + A.m22 * v.y + A.m23 * v.z,
   A.m31 * v.x + A.m32 * v.y + A.m33 * v.z⟩

/-- Matrix-matrix product. -/
def M3.mul (A B : M3) : M3 :=
  ⟨A.m11 * B.m11 + A.m12 * B.m21 + A.m13 * B.m31,
   A.m11 * B.m12 + A.m12 * B.m22 + A.m13 * B.m32,
   A.m11 * B.m13 + A.m12 * B.m23 + A.m13 * B.m33,
   A.m21 * B.m11 + A.m22 * B.m21 + A.m23 * B.m31,
   A.m21 * B.m12 + A.m22 * B.m22 + A.m23 * B.m32,
   A.m21 * B.m13 + A.m22 * B.m23 + A.m23 * B.m33,
   A.m31 * B.m11 + A.m32 * B.m21 + A.m33 * B.m31,
   A.m31 * B.m12 + A.m32 * B.m22 + A.m33 * B.m32,
   A.m31 * B.m13 + A.m32 * B.m23 + A.m33 * B.m33⟩

instance : Mul M3 := ⟨M3.mul⟩

/-- Transpose; for a rotation matrix this is the embedding of the manif and
iDynTree rotation inverse. -/
def M3.transpose (A : M3) : M3 :=
  ⟨A.m11, A.m21, A.m31, A.m12, A.m22, A.m32, A.m13, A.m23, A.m33⟩

/-- Identity matrix. -/
def M3.one : M3 := ⟨1, 0, 0, 0, 1, 0, 0, 0, 1⟩

instance : One M3 := ⟨M3.one⟩

/-- A wrench (iDynTree spatial force vector): linear force part and angular
torque part, indexed 0..2 for force and 3..5 for torque. -/
structure Wrench where
  force : V3
  torque : V3
deriving DecidableEq

/-- The zero wrench. -/
def Wrench.zero : Wrench := ⟨V3.zero, V3.zero⟩

/-- Component access matching the iDynTree SpatialVector operator():
indices 0..2 read the linear part, 3..5 the angular part. -/
def Wrench.get (w : Wrench) : ℕ → ℚ
  | 0 => w.force.x
  | 1 => w.force.y
  | 2 => w.force.z
  | 3 => w.torque.x
  | 4 => w.torque.y
  | 5 => w.torque.z
  | _ => 0

/-- Scaling a wrench by a rational scales both parts (iDynTree
SpatialForceVector scalar product). -/
def Wrench.smul (c : ℚ) (w : Wrench) : Wrench :=
  ⟨V3.smul c w.force, V3.smul c w.torque⟩

instance : SMul ℚ Wrench := ⟨Wrench.smul⟩

/-- Application of an iDynTree Transform (rotation R, position p) to a
wrench: the force is rotated, the torque is rotated and receives the moment
of the rotated force about p. -/
def wrenchTransform (R : M3) (p : V3) (w : Wrench) : Wrench :=
  let f := R.mulVec w.force
  ⟨f, V3.add (p.cross f) (R.mulVec w.torque)⟩

/-- Write the six components of a wrench into a stacked measurement vector
at a given offset, leaving every other entry unchanged (models the
per-sensor range writes into the Berdy measurement vector). -/
def writeWrench (m : ℕ → ℚ) (off : ℕ) (w : Wrench) : ℕ → ℚ :=
  fun k => if off ≤ k ∧ k < off + 6 then w.get (k - off) else m k

/-- Index k lies outside the six-slot sensor range starting at off.
Distinct Berdy sensors occupy pairwise disjoint ranges of the stacked
measurement vector, which claims about individual slots assume. -/
def outsideRange (k off : ℕ) : Prop :=
  ¬ (off ≤ k ∧ k < off + 6)

instance (k off : ℕ) : Decidable (outsideRange k off) := by
  unfold outsideRange
  exact inferInstance

/-! Embedding of the inverse-kinematics component
    (src/IK/src/InverseKinematics.cpp, class HumanIK). -/

/-- Internal state of the FloatingBaseSystemKinematics dynamical system held
by the BipedalLocomotion ForwardEuler integrator: base position, base
rotation and joint positions (the solution of the previous integration
step, seeded from the robot state at initialization). -/
structure SysState where
  basePos : V3
  baseRot : M3
  jointPos : List ℚ
deriving DecidableEq

/-- Control input pushed into the dynamical system before integration: the
base twist (linear and angular part of m_baseVelocity) and the joint
velocities. -/
structure CtrlInput where
  baseLinVel : V3
  baseAngVel : V3
  jointVel : List ℚ
deriving DecidableEq

/-- One explicit forward-Euler step of the floating-base kinematics on the
position/rotation manifold: positions move linearly along the velocity,
the base rotation is retracted with the SO(3) exponential of the scaled
angular velocity.  The exponential map itself lives in the external manif
library and is taken as the oracle parameter exp3. -/
def eulerStep (exp3 : V3 → M3) (dt : ℚ) (x : SysState) (u : CtrlInput) : SysState :=
  { basePos := V3.add x.basePos (V3.smul dt u.baseLinVel)
    baseRot := M3.mul (exp3 (V3.smul dt u.baseAngVel)) x.baseRot
    jointPos := List.zipWith (fun p v => p + dt * v) x.jointPos u.jointVel }

/-- The robot state held by the external articulated model (the kinDyn
object) after a setRobotState call: base pose, joint positions, base twist,
joint velocities and the gravity vector. -/
structure ModelState where
  basePos : V3
  baseRot : M3
  jointPos : List ℚ
  baseLinVel : V3
  baseAngVel : V3
  jointVel : List ℚ
  gravity : V3

/-- Per-node orientation task entry of m_OrientationTasks: the node number,
the fixed IMU-to-link rotation, the calibration matrix, and the setpoint
last pushed into the underlying SO3Task (the SO3Task stores the desired
rotation and angular velocity given to setSetPoint). -/
structure OTask where
  nodeNumber : ℤ
  IMU_R_link : M3
  calibrationMatrix : M3
  setPointRot : M3
  setPointVel : V3
deriving DecidableEq

/-- State of a HumanIK instance: cached joint and base state, the gravity
member, the integrator system state, the articulated-model state, the
orientation-task map keyed by node number, the calib_R_link member used by
the T-pose calibration, and the integration timestep in nanoseconds. -/
structure IKState where
  nrDoFs : ℕ
  jointPositions : List ℚ
  jointVelocities : List ℚ
  basePos : V3
  baseRot : M3
  baseLinVel : V3
  baseAngVel : V3
  gravity : V3
  sys : SysState
  model : ModelState
  orientationTasks : ℤ → Option OTask
  calib_R_link : M3
  dtNs : ℤ

namespace HumanIK

/-- Conversion done by setDt: a duration in seconds is cast to a whole
number of nanoseconds; std::chrono duration_cast truncates toward zero. -/
def dtToNanoseconds (dt : ℚ) : ℤ :=
  if 0 ≤ dt then ⌊dt * 10 ^ 9⌋ else ⌈dt * 10 ^ 9⌉

/-- HumanIK::setDt: stores the truncated nanosecond timestep and forwards
it to the external integrator, whose success flag (setStepOk) is returned. -/
def setDt (dt : ℚ) (setStepOk : Bool) (st : IKState) : Bool × IKState :=
  (setStepOk, { st with dtNs := dtToNanoseconds dt })

/-- HumanIK::getDt: converts the stored nanosecond timestep back to
seconds. -/
def getDt (st : IKState) : ℚ :=
  (st.dtNs : ℚ) / 10 ^ 9

/-- HumanIK::getDoFsNumber. -/
def getDoFsNumber (st : IKState) : ℕ :=
  st.nrDoFs

/-- HumanIK::setNodeSetPoint: fails when the node is not in the
orientation-task map; otherwise composes the calibration matrix, the
measured rotation and the IMU-to-link rotation and pushes the result,
together with the measured angular velocity, into the SO3Task of the
node. -/
def setNodeSetPoint (st : IKState) (node : ℤ) (I_R_IMU : M3) (I_omega_IMU : V3) :
    Bool × IKState :=
  match st.orientationTasks node with
  | none => (false, st)
  | some t =>
    let I_R_link := t.calibrationMatrix * I_R_IMU * t.IMU_R_link
    (true,
     { st with
         orientationTasks := fun k =>
           if k = node then
             some { t with setPointRot := I_R_link, setPointVel := I_omega_IMU }
           else st.orientationTasks k })

/-- HumanIK::TPoseCalibrationNode: fails when the node is not in the
orientation-task map; otherwise stores
calib_R_link * (I_R_IMU * IMU_R_link)⁻¹ as the calibration matrix of the
node (the rotation inverse is the transpose). -/
def TPoseCalibrationNode (st : IKState) (node : ℤ) (I_R_IMU : M3) :
    Bool × IKState :=
  match st.orientationTasks node with
  | none => (false, st)
  | some t =>
    (true,
     { st with
         orientationTasks := fun k =>
           if k = node then
             some { t with
                      calibrationMatrix :=
                        st.calib_R_link * (I_R_IMU * t.IMU_R_link).transpose }
           else st.orientationTasks k })

/-- Results of the external calls made by one HumanIK::advance cycle: the
QP solver advance flag and output-validity flag, the generalized velocity
it produced (joint velocities plus base twist coefficients), and the
success flags of setControlInput and of the integrator. -/
structure QPOracle where
  advanceOk : Bool
  outputValid : Bool
  jointVelocity : List ℚ
  baseLinVel : V3
  baseAngVel : V3
  setControlOk : Bool
  integrateOk : Bool

/-- HumanIK::advance: first the QP solve and its validity check (failure
returns false with nothing written); then the cached velocities are
overwritten with the solver output, the control input is pushed into the
dynamical system and one forward-Euler step over the stored timestep is
taken (failure here returns false with only the velocities updated); on
success the cached base pose and joint positions are replaced by the
integrator solution and the articulated-model state is set to match. -/
def advance (exp3 : V3 → M3) (o : QPOracle) (st : IKState) : Bool × IKState :=
  if o.advanceOk && o.outputValid then
    let st1 := { st with
                   jointVelocities := o.jointVelocity
                   baseLinVel := o.baseLinVel
                   baseAngVel := o.baseAngVel }
    if o.setControlOk && o.integrateOk then
      let sol := eulerStep exp3 ((st.dtNs : ℚ) / 10 ^ 9) st.sys
        ⟨o.baseLinVel, o.baseAngVel, o.jointVelocity⟩
      (true,
       { st1 with
           sys := sol
           basePos := sol.basePos
           baseRot := sol.baseRot
           jointPositions := sol.jointPos
           model := ⟨sol.basePos, sol.baseRot, sol.jointPos,
                     o.baseLinVel, o.baseAngVel, o.jointVelocity, st.gravity⟩ })
    else (false, st1)
  else (false, st)

/-- HumanIK::getJointPositions: copies the cached joint positions into the
caller buffer when the sizes agree, otherwise fails leaving the buffer
alone.  A const method: it is a pure function of the state. -/
def getJointPositions (st : IKState) (buf : List ℚ) : Bool × List ℚ :=
  if buf.length = st.jointPositions.length then (true, st.jointPositions)
  else (false, buf)

/-- HumanIK::getJointVelocities: same contract as getJointPositions for the
cached joint velocities. -/
def getJointVelocities (st : IKState) (buf : List ℚ) : Bool × List ℚ :=
  if buf.length = st.jointVelocities.length then (true, st.jointVelocities)
  else (false, buf)

/-- HumanIK::getBasePosition: unconditionally copies the base position out
of the cached base pose and returns true. -/
def getBasePosition (st : IKState) : Bool × V3 :=
  (true, st.basePos)

/-- HumanIK::getBaseOrientation: unconditionally copies the base rotation
out of the cached base pose and returns true. -/
def getBaseOrientation (st : IKState) : Bool × M3 :=
  (true, st.baseRot)

/-- HumanIK::getBaseLinearVelocity: unconditionally copies the top three
rows of the cached base velocity and returns true. -/
def getBaseLinearVelocity (st : IKState) : Bool × V3 :=
  (true, st.baseLinVel)

/-- HumanIK::getBaseAngularVelocity: unconditionally copies the bottom
three rows of the cached base velocity and returns true. -/
def getBaseAngularVelocity (st : IKState) : Bool × V3 :=
  (true, st.baseAngVel)

end HumanIK

/-! Embedding of the inverse-dynamics component
    (src/ID/src/InverseDynamics.cpp, class HumanID). -/

/-- The two wrench-source kinds of the WrenchSourceType enumeration. -/
inductive WrenchSourceType where
  | Fixed : WrenchSourceType
  | Dummy : WrenchSourceType
deriving DecidableEq

/-- One configured wrench source (WrenchSourceData): the output frame name,
the kind, the frame transform (rotation and position) and the currently
resolved wrench. -/
structure WrenchSourceData where
  outputFrame : String
  type : WrenchSourceType
  transformRot : M3
  transformPos : V3
  wrench : Wrench
deriving DecidableEq

/-- The KinematicState member: joint positions, joint velocities and base
angular velocity last read from the articulated model. -/
structure KinState where
  jointsPosition : List ℚ
  jointsVelocity : List ℚ
  baseAngularVelocity : V3
deriving DecidableEq

/-- State of a HumanID instance: configured human mass, the cached
kinematic state, the wrench sources, the stacked measurement vector of the
external-wrench Berdy estimator, the two estimated-dynamic-variable
buffers, and the two outputs (estimated external wrenches, estimated joint
torques).  Scratch arrays that are only passed through to the external
Berdy solver are not tracked. -/
structure IDState where
  humanMass : ℚ
  kinState : KinState
  wrenchSources : List WrenchSourceData
  estimatedExtWrenches : List Wrench
  extMeasurement : ℕ → ℚ
  extEstimatedDynVariables : List ℚ
  jtEstimatedDynVariables : List ℚ
  estimatedJointTorques : List ℚ

/-- Lookup of a named wrench in the measurement map passed to
updateExtWrenchesMeasurements (std::unordered_map find/at by frame
name). -/
def findWrench (name : String) : List (String × Wrench) → Option Wrench
  | [] => none
  | (n, w) :: rest => if n = name then some w else findWrench name rest

namespace HumanID

/-- Articulated-model query results consumed by one
HumanID::updateExtWrenchesMeasurements call: the current world rotation of
each frame in the external-wrench model (after the joint-state copy that
synchronizes it with the main model), the Berdy
NET_EXT_WRENCH_SENSOR range offset of each output frame, the RCM_SENSOR
range offset, the contents of the never-assigned world_gravity local
variable, and the center-of-mass position, base position and base rotation
of the main model. -/
structure UpdateOracle where
  frameRot : String → M3
  sensorOffset : String → ℕ
  rcmOffset : ℕ
  worldGravityMem : V3
  comPos : V3
  basePos : V3
  baseRot : M3

/-- HumanID::computeRCMInBaseFrame: builds the spatial force
(world_gravity, 0), scales it by minus the configured human mass, and maps
it by the transform whose rotation is the inverse of the world base
rotation and whose position is the center-of-mass position minus the base
position.  The world_gravity local of the source is never assigned, so its
value is the parameter worldGravityMem. -/
def computeRCMInBaseFrame (worldGravityMem : V3) (humanMass : ℚ)
    (comPos basePos : V3) (baseRot : M3) : Wrench :=
  let subjectWeightInCentroidal : Wrench :=
    Wrench.smul (-humanMass) ⟨worldGravityMem, V3.zero⟩
  wrenchTransform baseRot.transpose (V3.sub comPos basePos) subjectWeightInCentroidal

/-- The per-source loop of HumanID::updateExtWrenchesMeasurements.  A Dummy
source only has the rotation of its stored transform refreshed from the
model.  A Fixed source looks its output frame up in the measurement map --
a missing entry aborts the loop with false, keeping the mutations already
made -- then stores the transformed wrench and writes its six components
into the measurement vector at the Berdy sensor range of the frame. -/
def processSources (o : UpdateOracle) (wmap : List (String × Wrench)) :
    List WrenchSourceData → (ℕ → ℚ) → Bool × List WrenchSourceData × (ℕ → ℚ)
  | [], m => (true, [], m)
  | s :: rest, m =>
    match s.type with
    | WrenchSourceType.Dummy =>
      let s1 := { s with transformRot := o.frameRot s.outputFrame }
      let r := processSources o wmap rest m
      (r.1, s1 :: r.2.1, r.2.2)
    | WrenchSourceType.Fixed =>
      match findWrench s.outputFrame wmap with
      | none => (false, s :: rest, m)
      | some raw =>
        let w := wrenchTransform s.transformRot s.transformPos raw
        let s1 := { s with wrench := w }
        let r := processSources o wmap rest
          (writeWrench m (o.sensorOffset s.outputFrame) w)
        (r.1, s1 :: r.2.1, r.2.2)

/-- HumanID::updateExtWrenchesMeasurements: zeroes the measurement vector,
runs the per-source loop, and on success writes the consistency wrench
from computeRCMInBaseFrame into the RCM sensor range.  The joint-state
copy into the secondary external-wrench model mutates only that external
model, which the oracle queries reflect. -/
def updateExtWrenchesMeasurements (o : UpdateOracle)
    (wmap : List (String × Wrench)) (st : IDState) : Bool × IDState :=
  let r := processSources o wmap st.wrenchSources (fun _ => 0)
  if r.1 then
    let rcmWrench :=
      computeRCMInBaseFrame o.worldGravityMem st.humanMass o.comPos o.basePos o.baseRot
    (true, { st with
               wrenchSources := r.2.1
               extMeasurement := writeWrench r.2.2 o.rcmOffset rcmWrench })
  else
    (false, { st with wrenchSources := r.2.1, extMeasurement := r.2.2 })

/-- The value a wrench source holds after a successful
updateExtWrenchesMeasurements pass: a Dummy source has its transform
rotation refreshed, a Fixed source has its wrench replaced by the
transformed raw measurement. -/
def resolveSource (o : UpdateOracle) (wmap : List (String × Wrench))
    (s : WrenchSourceData) : WrenchSourceData :=
  match s.type with
  | WrenchSourceType.Dummy => { s with transformRot := o.frameRot s.outputFrame }
  | WrenchSourceType.Fixed =>
    match findWrench s.outputFrame wmap with
    | none => s
    | some raw =>
      { s with wrench := wrenchTransform s.transformRot s.transformPos raw }

/-- Results of the external calls made by one HumanID::solve cycle: the
joint state read back from the two models, the base angular velocity, the
outcome of the external-wrench Berdy estimate, the per-link external
wrenches extracted from it (queried by output-frame name), the outcome of
the joint-torque kinematics update and Berdy estimate, and the outcome and
buffer contents of the final joint-torque extraction. -/
structure SolveOracle where
  modelJointPos : List ℚ
  modelJointVel : List ℚ
  baseAngularVelocity : V3
  extDoEstimateOk : Bool
  extLastEstimate : List ℚ
  linkWrenchOf : String → Wrench
  kinUpdateOk : Bool
  jtDoEstimateOk : Bool
  jtLastEstimate : List ℚ
  extractOk : Bool
  extractedJointTorques : List ℚ

/-- HumanID::solve: refreshes the kinematic state from the model; runs the
external-wrench Berdy estimate (failure returns false before any output is
touched); on success stores the estimate and overwrites the
estimated-external-wrench output, one entry per source, from the per-link
wrenches; then updates the joint-torque kinematics and runs the
joint-torque Berdy estimate (failures return false with the
external-wrench output already overwritten); finally extracts the joint
torques into the torque output, returning false if the extraction
reports failure. -/
def solve (o : SolveOracle) (st : IDState) : Bool × IDState :=
  let st1 := { st with
                 kinState :=
                   ⟨o.modelJointPos, o.modelJointVel, o.baseAngularVelocity⟩ }
  if o.extDoEstimateOk then
    let st2 := { st1 with
                   extEstimatedDynVariables := o.extLastEstimate
                   estimatedExtWrenches :=
                     st.wrenchSources.map fun s => o.linkWrenchOf s.outputFrame }
    if o.kinUpdateOk then
      if o.jtDoEstimateOk then
        let st3 := { st2 with
                       jtEstimatedDynVariables := o.jtLastEstimate
                       estimatedJointTorques := o.extractedJointTorques }
        if o.extractOk then (true, st3) else (false, st3)
      else (false, st2)
    else (false, st2)
  else (false, st1)

/-- HumanID::getJointTorques: returns the cached joint-torque estimate. -/
def getJointTorques (st : IDState) : List ℚ :=
  st.estimatedJointTorques

/-- HumanID::getEstimatedExtWrenches: returns the cached external-wrench
estimate. -/
def getEstimatedExtWrenches (st : IDState) : List Wrench :=
  st.estimatedExtWrenches

/-- An all-success solve oracle, used to show that a failed solve leaves
the estimator able to succeed later. -/
def allOkOracle : SolveOracle :=
  { modelJointPos := []
    modelJointVel := []
    baseAngularVelocity := V3.zero
    extDoEstimateOk := true
    extLastEstimate := []
    linkWrenchOf := fun _ => Wrench.zero
    kinUpdateOk := true
    jtDoEstimateOk := true
    jtLastEstimate := []
    extractOk := true
    extractedJointTorques := [] }

end HumanID

/-! Embedding of HumanID configuration handling, for the initialization
    chain (HumanID::initialize and its helpers). -/

/-- One wrench-source configuration sub-group: each recognized option is
present or absent in the parameters handler. -/
structure WrenchSourceGroup where
  outputFrame : Option String
  type : Option String
  position : Option (List ℚ)
  orientation : Option (List ℚ)
  values : Option (List ℚ)

/-- The EXTERNAL_WRENCHES configuration group.  wrenchSources lists the
declared source sub-groups, each possibly missing from the handler;
elementCovariance gives the per-element covariance parameter of each name
in specificElements. -/
structure ExtWrenchesGroup where
  wrenchSources : Option (List (Option WrenchSourceGroup))
  modelPath : Option String
  mu_dyn_variables : Option ℚ
  cov_dyn_variables : Option ℚ
  specificElements : Option (List String)
  elementCovariance : String → Option (List ℚ)
  cov_measurements_RCM_SENSOR : Option (List ℚ)
  default_cov_measurements : Option ℚ

/-- The JOINT_TORQUES configuration group: only the presence of the
SENSOR_REMOVAL sub-group matters to the control flow embedded here. -/
structure JointTorquesGroup where
  sensorRemovalPresent : Bool

/-- Top-level HumanID configuration. -/
structure IDConfig where
  humanMass : Option ℚ
  jointTorquesGroup : Option JointTorquesGroup
  extWrenchesGroup : Option ExtWrenchesGroup

/-- Results of the external calls made during HumanID initialization:
validity of the model handle, outcomes of the sensor-removal loop and the
two Berdy helper/solver initializations, and of loading the secondary
model from modelPath. -/
structure InitOracle where
  kinDynValid : Bool
  sensorRemovalOk : Bool
  jtBerdyInitOk : Bool
  jtSolverInitOk : Bool
  loadModelOk : Bool
  loadRobotModelOk : Bool
  berdyOptionsConsistent : Bool
  extBerdyInitOk : Bool
  extSolverInitOk : Bool
  extSolverValid : Bool

/-- Parse one wrench-source sub-group the way the source loop does: the
group itself, its outputFrame and its type must be present; a fixed source
needs position and orientation, a dummy source needs values; any other
type string is rejected.  Geometry parsing keeps only what the claims
need: list entries are read positionally with default zero, the
default-constructed transform of a dummy source is irrelevant to every
claim and is represented by the identity. -/
def buildSource (g : Option WrenchSourceGroup) : Option WrenchSourceData :=
  match g with
  | none => none
  | some grp =>
    match grp.outputFrame with
    | none => none
    | some frame =>
      match grp.type with
      | none => none
      | some ty =>
        if ty = "fixed" then
          match grp.position with
          | none => none
          | some pos =>
            match grp.orientation with
            | none => none
            | some ori =>
              some { outputFrame := frame
                     type := WrenchSourceType.Fixed
                     transformRot :=
                       ⟨ori.getD 0 0, ori.getD 1 0, ori.getD 2 0,
                        ori.getD 3 0, ori.getD 4 0, ori.getD 5 0,
                        ori.getD 6 0, ori.getD 7 0, ori.getD 8 0⟩
                     transformPos := ⟨pos.getD 0 0, pos.getD 1 0, pos.getD 2 0⟩
                     wrench := Wrench.zero }
        else if ty = "dummy" then
          match grp.values with
          | none => none
          | some vals =>
            some { outputFrame := frame
                   type := WrenchSourceType.Dummy
                   transformRot := M3.one
                   transformPos := V3.zero
                   wrench := ⟨⟨vals.getD 0 0, vals.getD 1 0, vals.getD 2 0⟩,
                              ⟨vals.getD 3 0, vals.getD 4 0, vals.getD 5 0⟩⟩ }
        else none

/-- The wrench-source configuration loop: every declared source must
parse, otherwise initialization fails. -/
def buildSources : List (Option WrenchSourceGroup) → Option (List WrenchSourceData)
  | [] => some []
  | g :: rest =>
    match buildSource g with
    | none => none
    | some d =>
      match buildSources rest with
      | none => none
      | some ds => some (d :: ds)

/-- HumanID::initializeExtWrenchesHelper, follows the source order: the
wrenchSources parameter and every source sub-group must parse; then the
modelPath parameter is read and, when it is absent, the function warns and
returns false; otherwise the secondary model is loaded and the prior and
covariance parameters are read, each missing one failing the
initialization, and the external Berdy helper and solver are set up. -/
def initExtWrenchesHelper (cfg : ExtWrenchesGroup) (o : InitOracle) : Bool :=
  match cfg.wrenchSources with
  | none => false
  | some groups =>
    match buildSources groups with
    | none => false
    | some _ =>
      match cfg.modelPath with
      | none => false
      | some _ =>
        o.loadModelOk && o.loadRobotModelOk &&
        cfg.mu_dyn_variables.isSome &&
        cfg.cov_dyn_variables.isSome &&
        (match cfg.specificElements with
         | none => false
         | some els => els.all fun e => (cfg.elementCovariance e).isSome) &&
        cfg.cov_measurements_RCM_SENSOR.isSome &&
        cfg.default_cov_measurements.isSome &&
        o.berdyOptionsConsistent && o.extBerdyInitOk &&
        o.extSolverInitOk && o.extSolverValid

/-- HumanID::initializeJointTorquesHelper: needs the SENSOR_REMOVAL
sub-group, a successful wildcard sensor-removal loop (a failed removal of
a single named sensor only logs), and successful Berdy helper and solver
initialization. -/
def initJointTorquesHelper (jt : JointTorquesGroup) (o : InitOracle) : Bool :=
  jt.sensorRemovalPresent && o.sensorRemovalOk && o.jtBerdyInitOk && o.jtSolverInitOk

/-- HumanID::initialize: requires the humanMass parameter, a valid model
handle, the JOINT_TORQUES group with a successful joint-torque helper
initialization, and the EXTERNAL_WRENCHES group with a successful
external-wrench helper initialization. -/
def initHumanID (cfg : IDConfig) (o : InitOracle) : Bool :=
  match cfg.humanMass with
  | none => false
  | some _ =>
    o.kinDynValid &&
    (match cfg.jointTorquesGroup with
     | none => false
     | some jt =>
       initJointTorquesHelper jt o &&
       (match cfg.extWrenchesGroup with
        | none => false
        | some ew => initExtWrenchesHelper ew o))

/-! Specification-side definition used to compare the synthesized RCM
    consistency measurement against its documented meaning. -/

/-- The world gravity vector the specification appeals to (9.81 along the
negative vertical axis). -/
def gravityVector : V3 := ⟨0, 0, -981 / 100⟩

/-- The consistency measurement as the specification words it: the net
body-weight wrench expressed in the base frame, that is the
gravity-direction force scaled by the configured human mass, mapped by the
same centroidal-to-base transform the source builds from the
center-of-mass position and the base orientation.  This definition follows
the specification text; the source function it is compared against is
HumanID.computeRCMInBaseFrame. -/
def specBodyWeightWrenchInBase (humanMass : ℚ) (comPos basePos : V3)
    (baseRot : M3) : Wrench :=
  wrenchTransform baseRot.transpose (V3.sub comPos basePos)
    (Wrench.smul (-humanMass) ⟨gravityVector, V3.zero⟩)

/-! Concrete inputs for witnesses and counterexamples. -/

/-- Oracle for the SO(3) exponential that returns the identity rotation
(adequate for the zero angular velocities of the concrete inputs). -/
def exp3Id : V3 → M3 := fun _ => M3.one

/-- A small baseline HumanIK state with one degree of freedom. -/
def ikBase : IKState :=
  { nrDoFs := 1
    jointPositions := [0]
    jointVelocities := [0]
    basePos := V3.zero
    baseRot := M3.one
    baseLinVel := V3.zero
    baseAngVel := V3.zero
    gravity := V3.zero
    sys := ⟨V3.zero, M3.one, [0]⟩
    model := ⟨V3.zero, M3.one, [0], V3.zero, V3.zero, [0], V3.zero⟩
    orientationTasks := fun _ => none
    calib_R_link := M3.one
    dtNs := 10 ^ 9 }

/-- QP oracle whose solved joint velocity differs from the cached
previous-cycle joint velocity of ikBase. -/
def c1Oracle : HumanIK.QPOracle :=
  { advanceOk := true
    outputValid := true
    jointVelocity := [1]
    baseLinVel := V3.zero
    baseAngVel := V3.zero
    setControlOk := true
    integrateOk := true }

/-- An orientation-task entry with identity rotations. -/
def c5Task : OTask :=
  { nodeNumber := 1
    IMU_R_link := M3.one
    calibrationMatrix := M3.one
    setPointRot := M3.one
    setPointVel := V3.zero }

/-- A HumanIK state with node 1 configured. -/
def c5State : IKState :=
  { ikBase with orientationTasks := fun k => if k = 1 then some c5Task else none }

/-- A HumanIK state with two degrees of freedom for the accessor claims. -/
def c6State : IKState :=
  { ikBase with
      nrDoFs := 2
      jointPositions := [1, 2]
      jointVelocities := [3, 4] }

/-- A small baseline HumanID state. -/
def idBase : IDState :=
  { humanMass := 0
    kinState := ⟨[], [], V3.zero⟩
    wrenchSources := []
    estimatedExtWrenches := []
    extMeasurement := fun _ => 0
    extEstimatedDynVariables := []
    jtEstimatedDynVariables := []
    estimatedJointTorques := [] }

/-- A fixed wrench source with identity transform on frame link1. -/
def c2Source : WrenchSourceData :=
  { outputFrame := "link1"
    type := WrenchSourceType.Fixed
    transformRot := M3.one
    transformPos := V3.zero
    wrench := Wrench.zero }

/-- A HumanID state whose previously computed outputs are the zero wrench
and one zero joint torque. -/
def c2State : IDState :=
  { idBase with
      wrenchSources := [c2Source]
      estimatedExtWrenches := [Wrench.zero]
      estimatedJointTorques := [0] }

/-- A solve oracle whose external-wrench stage succeeds with a nonzero
link wrench but whose kinematics-update stage fails. -/
def c2Oracle : HumanID.SolveOracle :=
  { modelJointPos := [0]
    modelJointVel := [0]
    baseAngularVelocity := V3.zero
    extDoEstimateOk := true
    extLastEstimate := []
    linkWrenchOf := fun _ => ⟨⟨1, 0, 0⟩, V3.zero⟩
    kinUpdateOk := false
    jtDoEstimateOk := true
    jtLastEstimate := []
    extractOk := true
    extractedJointTorques := [5] }

/-- A dummy wrench source carrying the nonzero constant wrench
(1,0,0,0,0,0). -/
def c3Dummy : WrenchSourceData :=
  { outputFrame := "frameA"
    type := WrenchSourceType.Dummy
    transformRot := M3.one
    transformPos := V3.zero
    wrench := ⟨⟨1, 0, 0⟩, V3.zero⟩ }

/-- A HumanID state configured with the single dummy source. -/
def c3State : IDState :=
  { idBase with wrenchSources := [c3Dummy] }

/-- Model oracle placing the dummy sensor range at offset 0 and the RCM
range at offset 6. -/
def c3Oracle : HumanID.UpdateOracle :=
  { frameRot := fun _ => M3.one
    sensorOffset := fun _ => 0
    rcmOffset := 6
    worldGravityMem := V3.zero
    comPos := V3.zero
    basePos := V3.zero
    baseRot := M3.one }

/-- A fixed wrench source with identity transform on frame frameB. -/
def c3Fixed : WrenchSourceData :=
  { outputFrame := "frameB"
    type := WrenchSourceType.Fixed
    transformRot := M3.one
    transformPos := V3.zero
    wrench := Wrench.zero }

/-- A HumanID state configured with the single fixed source. -/
def c3WState : IDState :=
  { idBase with wrenchSources := [c3Fixed] }

/-- A measurement map providing the raw wrench (2,0,0,0,0,0) for
frameB. -/
def c3WMap : List (String × Wrench) :=
  [("frameB", ⟨⟨2, 0, 0⟩, V3.zero⟩)]

/-- A HumanID state with a configured human mass of 75. -/
def c4State : IDState :=
  { idBase with humanMass := 75 }

/-- Model oracle for the RCM claim: the RCM range starts at offset 0; the
never-assigned world_gravity local is taken to hold zeroes. -/
def c4Oracle : HumanID.UpdateOracle :=
  { frameRot := fun _ => M3.one
    sensorOffset := fun _ => 42
    rcmOffset := 0
    worldGravityMem := V3.zero
    comPos := V3.zero
    basePos := V3.zero
    baseRot := M3.one }

/-- An EXTERNAL_WRENCHES configuration group with every parameter present
except modelPath. -/
def c8Ext : ExtWrenchesGroup :=
  { wrenchSources := some []
    modelPath := none
    mu_dyn_variables := some 0
    cov_dyn_variables := some 0
    specificElements := some []
    elementCovariance := fun _ => none
    cov_measurements_RCM_SENSOR := some []
    default_cov_measurements := some 0 }

/-- A HumanID configuration whose EXTERNAL_WRENCHES group lacks
modelPath. -/
def c8Config : IDConfig :=
  { humanMass := some 75
    jointTorquesGroup := some ⟨true⟩
    extWrenchesGroup := some c8Ext }

/-- An all-success initialization oracle. -/
def c8Oracle : InitOracle :=
  { kinDynValid := true
    sensorRemovalOk := true
    jtBerdyInitOk := true
    jtSolverInitOk := true
    loadModelOk := true
    loadRobotModelOk := true
    berdyOptionsConsistent := true
    extBerdyInitOk := true
    extSolverInitOk := true
    extSolverValid := true }

/-! Helper lemmas shared by the claim theorems. -/

theorem writeWrench_outside (m : ℕ → ℚ) (off : ℕ) (w : Wrench) (k : ℕ)
    (h : outsideRange k off) : writeWrench m off w k = m k := by
  unfold writeWrench
  exact if_neg h

theorem writeWrench_inside (m : ℕ → ℚ) (off : ℕ) (w : Wrench) (j : ℕ)
    (hj : j < 6) : writeWrench m off w (off + j) = w.get j := by
  unfold writeWrench
  rw [if_pos ⟨Nat.le_add_right _ _, Nat.add_lt_add_left hj _⟩,
    Nat.add_sub_cancel_left]

theorem processSources_ok_iff (o : HumanID.UpdateOracle)
    (wmap : List (String × Wrench)) (srcs : List WrenchSourceData) (m : ℕ → ℚ) :
    (HumanID.processSources o wmap srcs m).1 = true ↔
      ∀ s ∈ srcs, s.type = WrenchSourceType.Fixed →
        (findWrench s.outputFrame wmap).isSome := by
  induction srcs generalizing m with
  | nil => simp [HumanID.processSources]
  | cons s rest ih =>
    cases hty : s.type with
    | Dummy =>
      simp [HumanID.processSources, hty, ih]
    | Fixed =>
      cases hfw : findWrench s.outputFrame wmap with
      | none => simp [HumanID.processSources, hty, hfw]
      | some w => simp [HumanID.processSources, hty, hfw, ih]

theorem processSources_preserve (o : HumanID.UpdateOracle)
    (wmap : List (String × Wrench)) (srcs : List WrenchSourceData)
    (m : ℕ → ℚ) (k : ℕ)
    (hk : ∀ s ∈ srcs, s.type = WrenchSourceType.Fixed →
            outsideRange k (o.sensorOffset s.outputFrame)) :
    (HumanID.processSources o wmap srcs m).2.2 k = m k := by
  induction srcs generalizing m with
  | nil => rfl
  | cons s rest ih =>
    cases hty : s.type with
    | Dummy =>
      simp only [HumanID.processSources, hty]
      exact ih m fun q hq h => hk q (List.mem_cons_of_mem _ hq) h
    | Fixed =>
      cases hfw : findWrench s.outputFrame wmap with
      | none => simp [HumanID.processSources, hty, hfw]
      | some w =>
        simp only [HumanID.processSources, hty, hfw]
        rw [ih _ fun q hq h => hk q (List.mem_cons_of_mem _ hq) h]
        exact writeWrench_outside _ _ _ _ (hk s (List.mem_cons_self _ _) hty)

theorem processSources_fixed_slot (o : HumanID.UpdateOracle)
    (wmap : List (String × Wrench)) (pre : List WrenchSourceData)
    (s : WrenchSourceData) (post : List WrenchSourceData) (raw : Wrench)
    (m : ℕ → ℚ) (j : ℕ)
    (hty : s.type = WrenchSourceType.Fixed)
    (hfw : findWrench s.outputFrame wmap = some raw)
    (hpre : ∀ p ∈ pre, p.type = WrenchSourceType.Fixed →
              (findWrench p.outputFrame wmap).isSome)
    (hpost : ∀ q ∈ post, q.type = WrenchSourceType.Fixed →
              outsideRange (o.sensorOffset s.outputFrame + j)
                (o.sensorOffset q.outputFrame))
    (hj : j < 6) :
    (HumanID.processSources o wmap (pre ++ s :: post) m).2.2
        (o.sensorOffset s.outputFrame + j)
      = (wrenchTransform s.transformRot s.transformPos raw).get j := by
  induction pre generalizing m with
  | nil =>
    simp only [List.nil_append, HumanID.processSources, hty, hfw]
    rw [processSources_preserve o wmap post _ _ hpost]
    exact writeWrench_inside _ _ _ _ hj
  | cons p pre2 ih =>
    have hmem := hpre p (List.mem_cons_self _ _)
    cases hpt : p.type with
    | Dummy =>
      simp only [List.cons_append, HumanID.processSources, hpt]
      exact ih m fun q hq h => hpre q (List.mem_cons_of_mem _ hq) h
    | Fixed =>
      cases hfp : findWrench p.outputFrame wmap with
      | none =>
        rw [hfp] at hmem
        simp [hpt] at hmem
      | some wp =>
        simp only [List.cons_append, HumanID.processSources, hpt, hfp]
        exact ih _ fun q hq h => hpre q (List.mem_cons_of_mem _ hq) h

theorem processSources_sources_of_ok (o : HumanID.UpdateOracle)
    (wmap : List (String × Wrench)) (srcs : List WrenchSourceData) (m : ℕ → ℚ)
    (h : (HumanID.processSources o wmap srcs m).1 = true) :
    (HumanID.processSources o wmap srcs m).2.1 =
      srcs.map (HumanID.resolveSource o wmap) := by
  induction srcs generalizing m with
  | nil => rfl
  | cons s rest ih =>
    cases hty : s.type with
    | Dummy =>
      simp only [HumanID.processSources, hty] at h ⊢
      simp only [List.map_cons, HumanID.resolveSource, hty]
      rw [ih m h]
    | Fixed =>
      cases hfw : findWrench s.outputFrame wmap with
      | none => simp [HumanID.processSources, hty, hfw] at h
      | some raw =>
        simp only [HumanID.processSources, hty, hfw] at h ⊢
        simp only [List.map_cons, HumanID.resolveSource, hty, hfw]
        rw [ih _ h]

theorem updateExtWrenches_fst (o : HumanID.UpdateOracle)
    (wmap : List (String × Wrench)) (st : IDState) :
    (HumanID.updateExtWrenchesMeasurements o wmap st).1 =
      (HumanID.processSources o wmap st.wrenchSources (fun _ => 0)).1 := by
  unfold HumanID.updateExtWrenchesMeasurements
  by_cases h : (HumanID.processSources o wmap st.wrenchSources (fun _ => 0)).1 <;>
    simp [h]

/-! Claim theorems. -/

/-- Claim C5: once a calibration rotation is stored for a configured node,
the T-pose calibration call succeeds, changes no already-pushed task
setpoint of any node, and every subsequent setNodeSetPoint for that node
stores calibrationMatrix * I_R_IMU * IMU_R_link as the task setpoint,
while leaving every calibration matrix untouched (so the same matrix keeps
being composed until a recalibration or clearing replaces it). -/
theorem c5_calibration_composition (st : IKState) (node : ℤ) (t : OTask)
    (Rc R : M3) (om : V3) (ht : st.orientationTasks node = some t) :
    (HumanIK.TPoseCalibrationNode st node Rc).1 = true ∧
    (HumanIK.TPoseCalibrationNode st node Rc).2.orientationTasks node =
      some { t with
               calibrationMatrix :=
                 st.calib_R_link * (Rc * t.IMU_R_link).transpose } ∧
    (∀ k u, st.orientationTasks k = some u →
       ∃ u2, (HumanIK.TPoseCalibrationNode st node Rc).2.orientationTasks k = some u2 ∧
         u2.setPointRot = u.setPointRot ∧ u2.setPointVel = u.setPointVel) ∧
    (HumanIK.setNodeSetPoint (HumanIK.TPoseCalibrationNode st node Rc).2 node R om).1
      = true ∧
    (HumanIK.setNodeSetPoint
        (HumanIK.TPoseCalibrationNode st node Rc).2 node R om).2.orientationTasks node =
      some { t with
               calibrationMatrix := st.calib_R_link * (Rc * t.IMU_R_link).transpose
               setPointRot :=
                 st.calib_R_link * (Rc * t.IMU_R_link).transpose * R * t.IMU_R_link
               setPointVel := om } ∧
    (∀ k, ((HumanIK.setNodeSetPoint
              (HumanIK.TPoseCalibrationNode st node Rc).2 node R om).2.orientationTasks k).map
            (fun u => u.calibrationMatrix) =
          ((HumanIK.TPoseCalibrationNode st node Rc).2.orientationTasks k).map
            (fun u => u.calibrationMatrix)) := by
  have hcal : (HumanIK.TPoseCalibrationNode st node Rc).2.orientationTasks =
      fun k =>
        if k = node then
          some { t with
                   calibrationMatrix :=
                     st.calib_R_link * (Rc * t.IMU_R_link).transpose }
        else st.orientationTasks k := by
    simp [HumanIK.TPoseCalibrationNode, ht]
  have hfst : (HumanIK.TPoseCalibrationNode st node Rc).1 = true := by
    simp [HumanIK.TPoseCalibrationNode, ht]
  refine ⟨hfst, ?_, ?_, ?_, ?_, ?_⟩
  · rw [hcal]
    simp
  · intro k u hu
    by_cases hk : k = node
    · subst hk
      rw [ht] at hu
      injection hu with hu2
      subst hu2
      exact ⟨{ t with
                 calibrationMatrix :=
                   st.calib_R_link * (Rc * t.IMU_R_link).transpose },
        by rw [hcal]; simp, rfl, rfl⟩
    · exact ⟨u, by rw [hcal]; simp [hk, hu], rfl, rfl⟩
  · simp [HumanIK.setNodeSetPoint, hcal]
  · simp [HumanIK.setNodeSetPoint, hcal]
  · intro k
    by_cases hk : k = node
    · subst hk
      simp [HumanIK.setNodeSetPoint, hcal]
    · simp [HumanIK.setNodeSetPoint, hcal, hk]

/-- Claim C5 witness at a concrete configured node. -/
theorem c5_witness :
    (HumanIK.TPoseCalibrationNode c5State 1 M3.one).1 = true ∧
    (HumanIK.setNodeSetPoint (HumanIK.TPoseCalibrationNode c5State 1 M3.one).2
        1 M3.one V3.zero).1 = true := by
  have h := c5_calibration_composition c5State 1 c5Task M3.one M3.one V3.zero
    (by simp [c5State])
  exact ⟨h.1, h.2.2.2.1⟩

/-- Claim C6: the joint-position and joint-velocity accessors succeed
exactly when the caller buffer has the degree-of-freedom length fixed at
initialization, in which case they copy out the cached vectors; any other
buffer length fails and leaves the buffer alone.  They are const methods,
embedded as pure functions of the state, so they mutate nothing and
trigger no solve. -/
theorem c6_joint_accessor_sizes (st : IKState) (buf : List ℚ)
    (hp : st.jointPositions.length = st.nrDoFs)
    (hv : st.jointVelocities.length = st.nrDoFs) :
    ((HumanIK.getJointPositions st buf).1 = true ↔ buf.length = st.nrDoFs) ∧
    ((HumanIK.getJointVelocities st buf).1 = true ↔ buf.length = st.nrDoFs) ∧
    (buf.length = st.nrDoFs →
       (HumanIK.getJointPositions st buf).2 = st.jointPositions ∧
       (HumanIK.getJointVelocities st buf).2 = st.jointVelocities) ∧
    (buf.length ≠ st.nrDoFs →
       HumanIK.getJointPositions st buf = (false, buf) ∧
       HumanIK.getJointVelocities st buf = (false, buf)) := by
  unfold HumanIK.getJointPositions HumanIK.getJointVelocities
  rw [hp, hv]
  by_cases h : buf.length = st.nrDoFs <;> simp [h]

/-- Claim C6 witness with two degrees of freedom. -/
theorem c6_witness :
    (HumanIK.getJointPositions c6State [0, 0]).1 = true ∧
    (HumanIK.getJointPositions c6State [0, 0]).2 = c6State.jointPositions ∧
    HumanIK.getJointPositions c6State [0] = (false, [0]) ∧
    HumanIK.getJointVelocities c6State [0] = (false, [0]) := by
  have h2 := c6_joint_accessor_sizes c6State [0, 0] rfl rfl
  have h1 := c6_joint_accessor_sizes c6State [0] rfl rfl
  exact ⟨h2.1.mpr rfl, (h2.2.2.1 rfl).1, (h1.2.2.2 (by decide)).1,
    (h1.2.2.2 (by decide)).2⟩

/-- Claim C7: a per-cycle update or calibration addressed to a node that is
not in the configured task map returns false and leaves the whole state,
in particular every configured node entry, unchanged. -/
theorem c7_unconfigured_node_rejected (st : IKState) (node : ℤ) (R : M3)
    (om : V3) (h : st.orientationTasks node = none) :
    HumanIK.setNodeSetPoint st node R om = (false, st) ∧
    HumanIK.TPoseCalibrationNode st node R = (false, st) := by
  unfold HumanIK.setNodeSetPoint HumanIK.TPoseCalibrationNode
  rw [h]
  exact ⟨rfl, rfl⟩

/-- Claim C7 witness at an unconfigured node. -/
theorem c7_witness :
    HumanIK.setNodeSetPoint ikBase 3 M3.one V3.zero = (false, ikBase) ∧
    HumanIK.TPoseCalibrationNode ikBase 3 M3.one = (false, ikBase) :=
  c7_unconfigured_node_rejected ikBase 3 M3.one V3.zero rfl

/-- Claim C8: when the EXTERNAL_WRENCHES group carries no modelPath entry,
HumanID initialization fails: the external-wrench helper warns and returns
false on the missing parameter, and every earlier exit of the
initialization chain is also a failure. -/
theorem c8_modelPath_required (cfg : IDConfig) (o : InitOracle)
    (ew : ExtWrenchesGroup) (hew : cfg.extWrenchesGroup = some ew)
    (h : ew.modelPath = none) : initHumanID cfg o = false := by
  have hx : initExtWrenchesHelper ew o = false := by
    unfold initExtWrenchesHelper
    rw [h]
    cases hws : ew.wrenchSources with
    | none => rfl
    | some groups =>
      cases hbs : buildSources groups with
      | none => simp [hbs]
      | some srcs => simp [hbs]
  unfold initHumanID
  cases hm : cfg.humanMass with
  | none => rfl
  | some mass =>
    cases hjt : cfg.jointTorquesGroup with
    | none => simp
    | some jt => simp [hew, hx]

/-- Claim C8 witness: a configuration complete except for modelPath. -/
theorem c8_witness : initHumanID c8Config c8Oracle = false :=
  c8_modelPath_required c8Config c8Oracle c8Ext rfl rfl

/-- Claim C9: the four base accessors have no failure path: for every
state they return true and copy the cached base position, base rotation
and the linear and angular halves of the cached base twist. -/
theorem c9_base_accessors_total (st : IKState) :
    HumanIK.getBasePosition st = (true, st.basePos) ∧
    HumanIK.getBaseOrientation st = (true, st.baseRot) ∧
    HumanIK.getBaseLinearVelocity st = (true, st.baseLinVel) ∧
    HumanIK.getBaseAngularVelocity st = (true, st.baseAngVel) :=
  ⟨rfl, rfl, rfl, rfl⟩

/-- Claim C10: for a non-negative timestep, setDt stores the duration
truncated to whole nanoseconds, so getDt returns the floor of dt scaled by
ten to the ninth, divided back, independent of the rest of the state. -/
theorem c10_setDt_getDt (st : IKState) (stepOk : Bool) (dt : ℚ)
    (h : 0 ≤ dt) :
    HumanIK.getDt (HumanIK.setDt dt stepOk st).2 =
      (⌊dt * 10 ^ 9⌋ : ℚ) / 10 ^ 9 := by
  simp [HumanIK.getDt, HumanIK.setDt, HumanIK.dtToNanoseconds, h]

/-- Claim C1 (amended): advance performs the prioritized least-squares
solve and its validity check first and returns false with nothing changed
when either fails; on a successful cycle the cached base pose and joint
positions become the one-step forward-Euler integral, on the
position/rotation manifold, of the previous integrator state driven by the
generalized velocity produced by this same solve (not by the stored
previous-cycle velocity), and the articulated-model state is set to
match. -/
theorem c1_advance_forward_euler (exp3 : V3 → M3) (o : HumanIK.QPOracle)
    (st : IKState) :
    ((o.advanceOk && o.outputValid) = false →
      HumanIK.advance exp3 o st = (false, st)) ∧
    (o.advanceOk = true → o.outputValid = true → o.setControlOk = true →
      o.integrateOk = true →
      HumanIK.advance exp3 o st =
        (true,
         { st with
             jointVelocities := o.jointVelocity
             baseLinVel := o.baseLinVel
             baseAngVel := o.baseAngVel
             sys := eulerStep exp3 ((st.dtNs : ℚ) / 10 ^ 9) st.sys
                      ⟨o.baseLinVel, o.baseAngVel, o.jointVelocity⟩
             basePos := (eulerStep exp3 ((st.dtNs : ℚ) / 10 ^ 9) st.sys
                      ⟨o.baseLinVel, o.baseAngVel, o.jointVelocity⟩).basePos
             baseRot := (eulerStep exp3 ((st.dtNs : ℚ) / 10 ^ 9) st.sys
                      ⟨o.baseLinVel, o.baseAngVel, o.jointVelocity⟩).baseRot
             jointPositions := (eulerStep exp3 ((st.dtNs : ℚ) / 10 ^ 9) st.sys
                      ⟨o.baseLinVel, o.baseAngVel, o.jointVelocity⟩).jointPos
             model := ⟨(eulerStep exp3 ((st.dtNs : ℚ) / 10 ^ 9) st.sys
                          ⟨o.baseLinVel, o.baseAngVel, o.jointVelocity⟩).basePos,
                       (eulerStep exp3 ((st.dtNs : ℚ) / 10 ^ 9) st.sys
                          ⟨o.baseLinVel, o.baseAngVel, o.jointVelocity⟩).baseRot,
                       (eulerStep exp3 ((st.dtNs : ℚ) / 10 ^ 9) st.sys
                          ⟨o.baseLinVel, o.baseAngVel, o.jointVelocity⟩).jointPos,
                       o.baseLinVel, o.baseAngVel, o.jointVelocity,
                       st.gravity⟩ })) := by
  constructor
  · intro h
    simp [HumanIK.advance, h]
  · intro h1 h2 h3 h4
    simp [HumanIK.advance, h1, h2, h3, h4]

/-- Claim C1 witness: a successful concrete cycle. -/
theorem c1_witness :
    HumanIK.advance exp3Id c1Oracle ikBase =
      (true,
       { ikBase with
           jointVelocities := c1Oracle.jointVelocity
           baseLinVel := c1Oracle.baseLinVel
           baseAngVel := c1Oracle.baseAngVel
           sys := eulerStep exp3Id ((ikBase.dtNs : ℚ) / 10 ^ 9) ikBase.sys
                    ⟨c1Oracle.baseLinVel, c1Oracle.baseAngVel, c1Oracle.jointVelocity⟩
           basePos := (eulerStep exp3Id ((ikBase.dtNs : ℚ) / 10 ^ 9) ikBase.sys
                    ⟨c1Oracle.baseLinVel, c1Oracle.baseAngVel, c1Oracle.jointVelocity⟩).basePos
           baseRot := (eulerStep exp3Id ((ikBase.dtNs : ℚ) / 10 ^ 9) ikBase.sys
                    ⟨c1Oracle.baseLinVel, c1Oracle.baseAngVel, c1Oracle.jointVelocity⟩).baseRot
           jointPositions := (eulerStep exp3Id ((ikBase.dtNs : ℚ) / 10 ^ 9) ikBase.sys
                    ⟨c1Oracle.baseLinVel, c1Oracle.baseAngVel, c1Oracle.jointVelocity⟩).jointPos
           model := ⟨(eulerStep exp3Id ((ikBase.dtNs : ℚ) / 10 ^ 9) ikBase.sys
                        ⟨c1Oracle.baseLinVel, c1Oracle.baseAngVel, c1Oracle.jointVelocity⟩).basePos,
                     (eulerStep exp3Id ((ikBase.dtNs : ℚ) / 10 ^ 9) ikBase.sys
                        ⟨c1Oracle.baseLinVel, c1Oracle.baseAngVel, c1Oracle.jointVelocity⟩).baseRot,
                     (eulerStep exp3Id ((ikBase.dtNs : ℚ) / 10 ^ 9) ikBase.sys
                        ⟨c1Oracle.baseLinVel, c1Oracle.baseAngVel, c1Oracle.jointVelocity⟩).jointPos,
                     c1Oracle.baseLinVel, c1Oracle.baseAngVel,
                     c1Oracle.jointVelocity, ikBase.gravity⟩ }) :=
  (c1_advance_forward_euler exp3Id c1Oracle ikBase).2 rfl rfl rfl rfl

/-- Claim C1 counterexample: integration does not use the previous-cycle
generalized velocity.  At a state whose cached previous joint velocity is
zero while the solver of the current cycle returns one, the successful
advance produces cached joint positions different from the forward-Euler
integral under the previous-cycle velocity. -/
theorem c1_counterexample :
    (HumanIK.advance exp3Id c1Oracle ikBase).1 = true ∧
    (HumanIK.advance exp3Id c1Oracle ikBase).2.jointPositions ≠
      (eulerStep exp3Id ((ikBase.dtNs : ℚ) / 10 ^ 9) ikBase.sys
        ⟨ikBase.baseLinVel, ikBase.baseAngVel, ikBase.jointVelocities⟩).jointPos := by
  constructor
  · rfl
  · simp [HumanIK.advance, eulerStep, exp3Id, c1Oracle, ikBase]

/-- Claim C2 (amended): a solve that fails at the external-wrench
estimation stage returns false leaving both outputs untouched; a solve
that fails at the later kinematics-update or joint-torque estimation stage
returns false with the joint torques untouched but with the
external-wrench output already overwritten by the estimates of the failing
cycle; after any failed solve the estimator remains usable, a later solve
whose external stages all succeed returns true. -/
theorem c2_failed_solve_outputs (o : HumanID.SolveOracle) (st : IDState) :
    (o.extDoEstimateOk = false →
      (HumanID.solve o st).1 = false ∧
      HumanID.getJointTorques (HumanID.solve o st).2 =
        HumanID.getJointTorques st ∧
      HumanID.getEstimatedExtWrenches (HumanID.solve o st).2 =
        HumanID.getEstimatedExtWrenches st) ∧
    (o.extDoEstimateOk = true →
      (o.kinUpdateOk = false ∨ (o.kinUpdateOk = true ∧ o.jtDoEstimateOk = false)) →
      (HumanID.solve o st).1 = false ∧
      HumanID.getJointTorques (HumanID.solve o st).2 =
        HumanID.getJointTorques st ∧
      HumanID.getEstimatedExtWrenches (HumanID.solve o st).2 =
        st.wrenchSources.map fun s => o.linkWrenchOf s.outputFrame) ∧
    ((HumanID.solve o st).1 = false →
      (HumanID.solve HumanID.allOkOracle (HumanID.solve o st).2).1 = true) := by
  refine ⟨?_, ?_, ?_⟩
  · intro h
    simp [HumanID.solve, HumanID.getJointTorques,
      HumanID.getEstimatedExtWrenches, h]
  · intro h1 h2
    rcases h2 with h2 | ⟨h2, h3⟩
    · simp [HumanID.solve, HumanID.getJointTorques,
        HumanID.getEstimatedExtWrenches, h1, h2]
    · simp [HumanID.solve, HumanID.getJointTorques,
        HumanID.getEstimatedExtWrenches, h1, h2, h3]
  · intro _
    rfl

/-- Claim C2 witness: a concrete failure of the kinematics-update stage. -/
theorem c2_witness :
    (HumanID.solve c2Oracle c2State).1 = false ∧
    HumanID.getJointTorques (HumanID.solve c2Oracle c2State).2 =
      HumanID.getJointTorques c2State ∧
    HumanID.getEstimatedExtWrenches (HumanID.solve c2Oracle c2State).2 =
      c2State.wrenchSources.map fun s => c2Oracle.linkWrenchOf s.outputFrame :=
  (c2_failed_solve_outputs c2Oracle c2State).2.1 rfl (Or.inl rfl)

/-- Claim C2 counterexample: after a solve that fails in the
kinematics-update stage, the external-wrench output differs from the one
returned before the call, refuting that every failed solve leaves all
previously computed outputs unchanged. -/
theorem c2_counterexample :
    (HumanID.solve c2Oracle c2State).1 = false ∧
    HumanID.getEstimatedExtWrenches (HumanID.solve c2Oracle c2State).2 ≠
      HumanID.getEstimatedExtWrenches c2State := by
  refine ⟨rfl, ?_⟩
  simp [HumanID.solve, HumanID.getEstimatedExtWrenches, c2Oracle, c2State,
    c2Source, idBase, Wrench.zero, V3.zero]

/-- Claim C3 (amended): when the measurement of some configured Fixed
source is absent from the input map the call returns false.  When every
Fixed source finds its measurement the call returns true; each Fixed
source stores, and writes into its six sensor slots of the stacked
measurement vector, its static frame transform applied to the raw
measurement looked up by output-frame name; each Dummy source only has the
rotation of its stored transform updated to the current model orientation
of its output frame and contributes nothing to the measurement vector,
whose entries outside every Fixed-source range and outside the RCM range
remain at the zero the vector is reset to. -/
theorem c3_fixed_and_dummy_sources (o : HumanID.UpdateOracle)
    (wmap : List (String × Wrench)) (st : IDState) :
    ((∃ s ∈ st.wrenchSources, s.type = WrenchSourceType.Fixed ∧
        findWrench s.outputFrame wmap = none) →
      (HumanID.updateExtWrenchesMeasurements o wmap st).1 = false) ∧
    ((∀ s ∈ st.wrenchSources, s.type = WrenchSourceType.Fixed →
        (findWrench s.outputFrame wmap).isSome) →
      (HumanID.updateExtWrenchesMeasurements o wmap st).1 = true ∧
      (HumanID.updateExtWrenchesMeasurements o wmap st).2.wrenchSources =
        st.wrenchSources.map (HumanID.resolveSource o wmap) ∧
      (∀ pre s post raw j,
        st.wrenchSources = pre ++ s :: post →
        s.type = WrenchSourceType.Fixed →
        findWrench s.outputFrame wmap = some raw →
        (∀ q ∈ post, q.type = WrenchSourceType.Fixed →
          outsideRange (o.sensorOffset s.outputFrame + j)
            (o.sensorOffset q.outputFrame)) →
        outsideRange (o.sensorOffset s.outputFrame + j) o.rcmOffset →
        j < 6 →
        (HumanID.updateExtWrenchesMeasurements o wmap st).2.extMeasurement
            (o.sensorOffset s.outputFrame + j) =
          (wrenchTransform s.transformRot s.transformPos raw).get j) ∧
      (∀ k,
        (∀ s ∈ st.wrenchSources, s.type = WrenchSourceType.Fixed →
          outsideRange k (o.sensorOffset s.outputFrame)) →
        outsideRange k o.rcmOffset →
        (HumanID.updateExtWrenchesMeasurements o wmap st).2.extMeasurement k
          = 0)) := by
  constructor
  · rintro ⟨s, hs, hty, hnone⟩
    rw [updateExtWrenches_fst, Bool.eq_false_iff]
    intro hok
    have hsome := (processSources_ok_iff o wmap st.wrenchSources
      (fun _ => 0)).1 hok s hs hty
    rw [hnone] at hsome
    simp at hsome
  · intro hall
    have hok : (HumanID.processSources o wmap st.wrenchSources
        (fun _ => 0)).1 = true :=
      (processSources_ok_iff o wmap st.wrenchSources (fun _ => 0)).2 hall
    have hupd : HumanID.updateExtWrenchesMeasurements o wmap st =
        (true,
         { st with
             wrenchSources :=
               (HumanID.processSources o wmap st.wrenchSources (fun _ => 0)).2.1
             extMeasurement :=
               writeWrench
                 (HumanID.processSources o wmap st.wrenchSources (fun _ => 0)).2.2
                 o.rcmOffset
                 (HumanID.computeRCMInBaseFrame o.worldGravityMem st.humanMass
                   o.comPos o.basePos o.baseRot) }) := by
      simp [HumanID.updateExtWrenchesMeasurements, hok]
    refine ⟨?_, ?_, ?_, ?_⟩
    · rw [updateExtWrenches_fst]
      exact hok
    · rw [hupd]
      exact processSources_sources_of_ok o wmap _ _ hok
    · intro pre s post raw j hdecomp hty hraw hpost hrcm hj
      rw [hupd]
      dsimp only
      rw [writeWrench_outside _ _ _ _ hrcm, hdecomp]
      refine processSources_fixed_slot o wmap pre s post raw _ j hty hraw
        ?_ hpost hj
      intro p hp hpt
      refine hall p ?_ hpt
      rw [hdecomp]
      exact List.mem_append_left _ hp
    · intro k hks hrcm
      rw [hupd]
      dsimp only
      rw [writeWrench_outside _ _ _ _ hrcm,
        processSources_preserve o wmap _ _ _ hks]

/-- Claim C3 witness: a Fixed source whose raw measurement is present has
its transformed wrench written at its sensor range. -/
theorem c3_witness :
    (HumanID.updateExtWrenchesMeasurements c3Oracle c3WMap c3WState).1 = true ∧
    (HumanID.updateExtWrenchesMeasurements c3Oracle c3WMap c3WState).2.extMeasurement
        (c3Oracle.sensorOffset c3Fixed.outputFrame + 0) =
      (wrenchTransform c3Fixed.transformRot c3Fixed.transformPos
        ⟨⟨2, 0, 0⟩, V3.zero⟩).get 0 := by
  have h := (c3_fixed_and_dummy_sources c3Oracle c3WMap c3WState).2
    (by intro s hs hty; simp [c3WState, idBase] at hs; subst hs; rfl)
  refine ⟨h.1, h.2.2.1 [] c3Fixed [] ⟨⟨2, 0, 0⟩, V3.zero⟩ 0 rfl rfl rfl ?_ ?_ ?_⟩
  · intro q hq
    simp at hq
  · decide
  · decide

/-- Claim C3 counterexample: a Dummy source with the nonzero constant
wrench (1,0,0,0,0,0) contributes nothing to the stacked measurement
vector: after a successful call its sensor slot holds zero, not the
constant wrench component. -/
theorem c3_counterexample :
    (HumanID.updateExtWrenchesMeasurements c3Oracle [] c3State).1 = true ∧
    c3Dummy.wrench.get 0 = 1 ∧
    (HumanID.updateExtWrenchesMeasurements c3Oracle [] c3State).2.extMeasurement 0
      = 0 ∧
    ((0 : ℚ) ≠ 1) := by
  refine ⟨rfl, rfl, rfl, by norm_num⟩

/-- Claim C4: the consistency measurement written into the RCM slots is
built from the local variable world_gravity that the source never assigns
(iDynTree fixed-size vectors are not zero-initialized), so it is not the
gravity-direction force scaled by the configured human mass: evaluating
the code with the indeterminate memory read as zeroes, a subject of mass
75 at the origin with identity base rotation yields a zero vertical-force
slot, while the body-weight wrench the specification describes has
vertical force 2943/4 there. -/
theorem c4_rcm_gravity_never_assigned :
    (HumanID.updateExtWrenchesMeasurements c4Oracle [] c4State).1 = true ∧
    (HumanID.updateExtWrenchesMeasurements c4Oracle [] c4State).2.extMeasurement 2
      = 0 ∧
    (specBodyWeightWrenchInBase 75 V3.zero V3.zero M3.one).get 2 = 2943 / 4 ∧
    ((2943 / 4 : ℚ) ≠ 0) := by
  refine ⟨rfl, ?_, ?_, by norm_num⟩
  · simp [HumanID.updateExtWrenchesMeasurements, HumanID.processSources,
      c4State, c4Oracle, idBase, HumanID.computeRCMInBaseFrame,
      wrenchTransform, writeWrench, Wrench.get, Wrench.smul, M3.mulVec,
      M3.transpose, M3.one, V3.cross, V3.zero, V3.smul, V3.add, V3.sub]
  · simp [specBodyWeightWrenchInBase, gravityVector, wrenchTransform,
      Wrench.get, Wrench.smul, M3.mulVec, M3.transpose, M3.one, V3.cross,
      V3.zero, V3.smul, V3.add, V3.sub]
    norm_num

/-- Claim C10 witness: one and a half nanoseconds truncate to one. -/
theorem c10_witness :
    0 ≤ (3 / (2 * 10 ^ 9) : ℚ) ∧
    HumanIK.getDt (HumanIK.setDt (3 / (2 * 10 ^ 9)) true ikBase).2 =
      1 / 10 ^ 9 := by
  refine ⟨by norm_num, ?_⟩
  rw [c10_setDt_getDt ikBase true (3 / (2 * 10 ^ 9)) (by norm_num)]
  norm_num

end BAF
